import Mathlib

/-!
# Verification of the Slack token-generator OAuth relay

Shallow embedding of the two implementations in this repository:

* `Server` — the standalone Express server (`UserTokenGenerator` class):
  `validateInput`, the `/auth/start` and `/auth/callback` route handlers,
  `exchangeCodeForToken`, `cleanupStates`, `getSuccessPageWithToken`,
  `getErrorPage`.
* `Api` — the serverless handler variant (`api/index.js`):
  `handleAuthStart`, `handleAuthCallback`.

JavaScript`s in-memory `Map` is embedded as an association list with unique
keys kept in insertion order.  Optional / possibly-`undefined` strings are
`Option String`, with JS truthiness (`undefined`/`null`/empty string are
falsy) made explicit.  Static HTML markup that no property depends on
(CSS, layout text) is abbreviated into named string constants; every
interpolation point of the templates is kept, in source order.
Console output is modelled as a list of strings, one per `console.log` /
`console.error` call, keeping exactly the data each call formats
(object-literal formatting is flattened to `key=value` text).
-/

namespace SlackRelay

/-- JS truthiness of a possibly-absent string: `undefined`/`null`
(`none`) and the empty string are falsy. -/
def truthy : Option String → Bool
  | none => false
  | some s => s ≠ ""

/-- JS `a || d` for a possibly-absent string `a` and a string default. -/
def jsOr (o : Option String) (d : String) : String :=
  match o with
  | none => d
  | some s => if s = "" then d else s

/-- The string a template literal produces for a possibly-absent value:
`undefined` prints as `"undefined"`. -/
def interp : Option String → String
  | none => "undefined"
  | some s => s

/-- Metadata stored for one pending OAuth state
(`{ user_id, user_name, timestamp }`). -/
structure StateData where
  user_id : String
  user_name : String
  timestamp : Int
  deriving Repr, DecidableEq

/-- The in-memory `Map` from state tokens to their metadata, as an
association list in insertion order. -/
abbrev StateMap := List (String × StateData)

/-- `Map.prototype.get`. -/
def mapGet (m : StateMap) (k : String) : Option StateData :=
  match m with
  | [] => none
  | (k', v) :: rest => if k' = k then some v else mapGet rest k

/-- `Map.prototype.set`: overwrite in place if the key exists,
otherwise append. -/
def mapSet (m : StateMap) (k : String) (v : StateData) : StateMap :=
  match m with
  | [] => [(k, v)]
  | (k', v') :: rest =>
      if k' = k then (k, v) :: rest else (k', v') :: mapSet rest k v

/-- `Map.prototype.delete`. -/
def mapDelete (m : StateMap) (k : String) : StateMap :=
  m.filter (fun e => e.1 ≠ k)

/-- Nested `authed_user` object of Slack`s token response. -/
structure AuthedUser where
  access_token : Option String
  id : Option String
  name : Option String
  scope : Option String
  deriving Repr, DecidableEq

/-- Nested `team` object of Slack`s token response. -/
structure Team where
  name : Option String
  deriving Repr, DecidableEq

/-- Parsed JSON body returned by `https://slack.com/api/oauth.v2.access`. -/
structure SlackTokenData where
  ok : Bool
  error : Option String
  authed_user : Option AuthedUser
  team : Option Team
  deriving Repr, DecidableEq

/-- `tokenData.authed_user?.access_token`. -/
def userTokenOf (d : SlackTokenData) : Option String :=
  d.authed_user.bind AuthedUser.access_token

/-- `tokenData.authed_user?.id`. -/
def userIdOf (d : SlackTokenData) : Option String :=
  d.authed_user.bind AuthedUser.id

/-- `tokenData.authed_user?.name`. -/
def userNameOf (d : SlackTokenData) : Option String :=
  d.authed_user.bind AuthedUser.name

/-- `tokenData.authed_user?.scope`. -/
def userScopeOf (d : SlackTokenData) : Option String :=
  d.authed_user.bind AuthedUser.scope

/-- `tokenData.team?.name`. -/
def teamNameOf (d : SlackTokenData) : Option String :=
  d.team.bind Team.name

/-- One HTTP reply the `fetch` to the token endpoint may observe:
transport-level status (with `ok` = status in 200..299 as `fetch` defines
it), the raw body text, and the body parsed as JSON. -/
structure HttpReply where
  ok : Bool
  status : Nat
  statusText : String
  text : String
  json : SlackTokenData
  deriving Repr, DecidableEq

/-- An outbound HTTP response of either handler: a rendered page with an
explicit status, or a redirect (Express `res.redirect` defaults to 302). -/
inductive Response where
  | page (status : Nat) (body : String)
  | redirect (status : Nat) (url : String)
  deriving Repr, DecidableEq

/-- Status code of a response. -/
def Response.statusOf : Response → Nat
  | .page s _ => s
  | .redirect s _ => s

/-- Body text of a response (a redirect`s body is taken to be its URL). -/
def Response.bodyOf : Response → String
  | .page _ b => b
  | .redirect _ u => u

/-- Whether a response is a redirect. -/
def Response.isRedirect : Response → Bool
  | .page _ _ => false
  | .redirect _ _ => true

/-- Result of one callback-handler invocation: the state map after the
call, the HTTP response, whether a token-exchange request was issued, and
the emitted log lines. -/
structure Outcome where
  store : StateMap
  response : Response
  exchanged : Bool
  logs : List String
  deriving Repr, DecidableEq

/-- The form-encoded POST body sent to the token endpoint. -/
structure PostRequest where
  client_id : String
  client_secret : String
  code : String
  redirect_uri : String
  deriving Repr, DecidableEq

/-- Hexadecimal digit (upper case, as `encodeURIComponent` emits). -/
def hexDigit (n : Nat) : Char :=
  if n < 10 then Char.ofNat (48 + n) else Char.ofNat (55 + n)

/-- Characters `encodeURIComponent` leaves unescaped. -/
def uriUnreserved (c : Char) : Bool :=
  c.isAlphanum || c = '-' || c = '_' || c = '.' || c = '!' ||
  c = '~' || c = '*' || c = '(' || c = ')'

/-- `encodeURIComponent` on one character (ASCII range; sufficient for the
scope and redirect-URI strings this program builds). -/
def encodeChar (c : Char) : List Char :=
  if uriUnreserved c then [c]
  else ['%', hexDigit (c.toNat / 16 % 16), hexDigit (c.toNat % 16)]

/-- `encodeURIComponent`. -/
def encodeURIComponent (s : String) : String :=
  String.mk (s.data.flatMap encodeChar)

end SlackRelay

namespace SlackRelay.Server

/-- Environment configuration read by the `UserTokenGenerator`
constructor: `SLACK_CLIENT_ID`, `SLACK_CLIENT_SECRET`,
`SLACK_REDIRECT_URI`, `PORT`.  Each is absent or a string. -/
structure Config where
  clientId : Option String
  clientSecret : Option String
  redirectUriEnv : Option String
  port : Option String
  deriving Repr, DecidableEq

/-- `this.port = process.env.PORT || 3000` (as it appears interpolated in
a template literal). -/
def Config.portStr (c : Config) : String :=
  jsOr c.port "3000"

/-- `this.redirectUri = process.env.SLACK_REDIRECT_URI ||
http://localhost:PORT/auth/callback`. -/
def Config.redirectUri (c : Config) : String :=
  jsOr c.redirectUriEnv ("http://localhost:" ++ c.portStr ++ "/auth/callback")

/-- The check `start()` performs before listening: it calls
`process.exit(1)` unless both `SLACK_CLIENT_ID` and `SLACK_CLIENT_SECRET`
are present.  `true` means the server comes up. -/
def startupOk (c : Config) : Bool :=
  truthy c.clientId && truthy c.clientSecret

/-- Whitespace as trimmed by `String.prototype.trim`
(the code points this program can meet). -/
def isJsSpace (c : Char) : Bool :=
  c = ' ' || c = '\t' || c = '\n' || c = '\r' ||
  c = Char.ofNat 11 || c = Char.ofNat 12 || c = Char.ofNat 160

/-- `String.prototype.trim`: strip leading and trailing whitespace. -/
def jsTrim (s : String) : String :=
  String.mk (((s.data.dropWhile isJsSpace).reverse.dropWhile isJsSpace).reverse)

/-- The characters `validateInput` strips: the regex class `[<>\"'&]`. -/
def isStrippedChar (c : Char) : Bool :=
  c = '<' || c = '>' || c = '"' || c = Char.ofNat 39 || c = '&'

/-- `validateInput(input, maxLength = 100)`: absent or non-string input
becomes the empty string; otherwise trim, `slice(0, 100)` (modelled on
characters), then delete every character of the class `[<>\"'&]`. -/
def validateInput (input : Option String) : String :=
  match input with
  | none => ""
  | some s =>
      if s = "" then ""
      else String.mk (((jsTrim s).data.take 100).filter
        (fun c => !(isStrippedChar c)))

/-- The `user_scope` string of the `/auth/start` route: the three
read-only scopes, joined with commas. -/
def userScopes : String :=
  String.intercalate "," ["channels:read", "groups:read", "users:read"]

/-- The provider authorization URL the `/auth/start` route builds. -/
def authUrl (cfg : Config) (state : String) : String :=
  "https://slack.com/oauth/v2/authorize?" ++
    "client_id=" ++ interp cfg.clientId ++ "&" ++
    "user_scope=" ++ encodeURIComponent userScopes ++ "&" ++
    "redirect_uri=" ++ encodeURIComponent cfg.redirectUri ++ "&" ++
    "state=" ++ state

/-- The `/auth/start` route handler of the Express server: sanitize the
two query parameters through `validateInput`, store the pending state,
and redirect to the provider.  `state` is the hex string
`crypto.randomBytes(16)` produced, `now` is `Date.now()`. -/
def authStart (cfg : Config) (state : String) (user_id user_name : Option String)
    (now : Int) (store : StateMap) : StateMap × Response × List String :=
  let userId := validateInput user_id
  let userName := validateInput user_name
  let store' := mapSet store state
    { user_id := userId, user_name := userName, timestamp := now }
  (store', .redirect 302 (authUrl cfg state),
   ["🔍 OAuth start requested",
    "Client ID: " ++ interp cfg.clientId,
    "Redirect URI: " ++ cfg.redirectUri,
    "🔗 Auth URL: " ++ authUrl cfg state])

/-- The POST body `exchangeCodeForToken` sends to
`https://slack.com/api/oauth.v2.access`. -/
def exchangeRequest (cfg : Config) (code : String) : PostRequest :=
  { client_id := interp cfg.clientId
    client_secret := interp cfg.clientSecret
    code := code
    redirect_uri := cfg.redirectUri }

/-- Flattened rendering of the structure-only log object
`exchangeCodeForToken` prints about the parsed reply (field presence
booleans and the `error` field; never the token itself). -/
def replyStructureLog (d : SlackTokenData) : String :=
  "📄 Slack response structure: ok=" ++ toString d.ok ++
    " hasAuthedUser=" ++ toString d.authed_user.isSome ++
    " hasAccessToken=" ++ toString (truthy (userTokenOf d)) ++
    " hasTeam=" ++ toString d.team.isSome ++
    " error=" ++ interp d.error

/-- The body of `exchangeCodeForToken` applied to the single reply the
`fetch` produced: throw on a non-2xx HTTP status (message carrying the
status and the body text), throw on `ok: false` (message carrying
`data.error`), otherwise return the parsed data.  Also returns the log
lines the function emits on that path. -/
def exchangeStep (cfg : Config) (code : Option String) (reply : HttpReply) :
    Except String SlackTokenData × List String :=
  let reqLogs :=
    ["🔄 Making token exchange request to Slack...",
     "📋 Request details: clientId=" ++
       (if truthy cfg.clientId then "Present" else "Missing") ++
       " clientSecret=" ++
       (if truthy cfg.clientSecret then "Present" else "Missing") ++
       " code=" ++ (if truthy code then "Present" else "Missing") ++
       " redirectUri=" ++ cfg.redirectUri,
     "📡 Slack API response status: " ++ toString reply.status ++ " " ++
       reply.statusText]
  if !reply.ok then
    (.error ("HTTP error! status: " ++ toString reply.status ++ " - " ++ reply.text),
     reqLogs ++
       ["❌ HTTP error from Slack: " ++ toString reply.status ++ " " ++ reply.statusText,
        "❌ Response body: " ++ reply.text,
        "❌ Exchange code error: HTTP error"])
  else if !reply.json.ok then
    (.error ("OAuth exchange failed: " ++ interp reply.json.error),
     reqLogs ++
       [replyStructureLog reply.json,
        "❌ Slack API error: " ++ interp reply.json.error,
        "❌ Full error response: " ++ toString (repr reply.json),
        "❌ Exchange code error: OAuth exchange failed"])
  else
    (.ok reply.json,
     reqLogs ++ [replyStructureLog reply.json, "✅ Token exchange successful"])

/-- `exchangeCodeForToken(code)` as observed over a transport holding the
replies the network would serve in order: it sends exactly one POST and
consumes exactly one reply (an empty transport is a `fetch` that throws).
Returns the result with its logs, the list of POSTs issued, and the
remaining transport. -/
def exchangeRun (cfg : Config) (code : Option String) (transport : List HttpReply) :
    (Except String SlackTokenData × List String) × List PostRequest × List HttpReply :=
  match transport with
  | [] => ((.error "fetch failed", ["❌ Exchange code error: fetch failed"]),
           [exchangeRequest cfg (interp code)], [])
  | r :: rest => (exchangeStep cfg code r, [exchangeRequest cfg (interp code)], rest)

/-- `10 * 60 * 1000` — the TTL `cleanupStates` compares ages against. -/
def tenMinutes : Int := 10 * 60 * 1000

/-- `cleanupStates()`: delete every entry whose age `now - timestamp`
strictly exceeds ten minutes, keeping all others. -/
def cleanupStates (now : Int) (store : StateMap) : StateMap :=
  store.filter (fun e => !(decide (now - e.2.timestamp > tenMinutes)))

/-- Static markup of `getErrorPage` before the interpolated
`errorMessage` (styled page; CSS and layout text abbreviated). -/
def errPagePre : String :=
  "<!DOCTYPE html><html><head><title>Authorization Error</title></head>" ++
  "<body><h1>❌ Authorization Failed</h1><strong>Error Details:</strong><br>"

/-- Static markup of `getErrorPage` after the interpolated message. -/
def errPagePost : String :=
  "<p>Please try again or contact your administrator if the problem " ++
  "persists.</p><a href=\"/\">← Try Again</a></body></html>"

/-- `getErrorPage(errorMessage)`: the styled error page with the message
interpolated once. -/
def getErrorPage (errorMessage : String) : String :=
  errPagePre ++ errorMessage ++ errPagePost

/-- Styled success page markup before the token (abbreviated). -/
def sp1 : String :=
  "<!DOCTYPE html><html><head><title>🎉 Token Generated Successfully</title>" ++
  "</head><body><h1>🎉 Your Slack Token is Ready!</h1>" ++
  "<h3>🔑 Your Personal Access Token</h3>" ++
  "<div class=\"token-display\" id=\"tokenDisplay\">"

/-- Styled page markup between the token and the user name. -/
def sp2 : String :=
  "</div><button class=\"copy-button\">📋 Copy Token to Clipboard</button>" ++
  "<strong>User:</strong>"

/-- Styled page markup between the user name and the user id. -/
def sp3 : String := "<strong>User ID:</strong>"

/-- Styled page markup between the user id and the team name. -/
def sp4 : String := "<strong>Team:</strong>"

/-- Styled page markup between the team name and the scopes. -/
def sp5 : String := "<strong>Permissions:</strong>"

/-- Styled page markup between the scopes and the generation time. -/
def sp6 : String := "Generated: "

/-- Styled page markup after the generation time (closing layout and the
copy script, abbreviated). -/
def sp7 : String :=
  "<small>Close this window once you have copied your token</small>" ++
  "</body></html>"

/-- The full styled success page of `getSuccessPageWithToken`: the
fallback chains of its `const` block followed by the template, whose
interpolation points are, in order: token, user name, user id, team name,
scopes (commas spaced out), generation time. -/
def styledSuccessPage (tokenData : SlackTokenData) (stateData : StateData)
    (nowStr : String) : String :=
  let userName := jsOr (userNameOf tokenData)
    (jsOr (some stateData.user_name) "Unknown User")
  let userId := jsOr (userIdOf tokenData) "Unknown ID"
  let teamName := jsOr (teamNameOf tokenData) "Unknown Team"
  let scopes := jsOr (userScopeOf tokenData) "No scopes"
  let userToken := jsOr (userTokenOf tokenData) "No token generated"
  sp1 ++ userToken ++
    (sp2 ++ userName ++ sp3 ++ userId ++ sp4 ++ teamName ++
      sp5 ++ (scopes.replace "," ", ") ++ sp6 ++ nowStr ++ sp7)

/-- Markup of the minimal fallback success page before the token. -/
def fbPre : String :=
  "\n<!DOCTYPE html>\n<html>\n<head><title>Success</title></head>\n<body>\n" ++
  "    <h1>✅ Token Generated Successfully!</h1>\n" ++
  "    <p>Your token: <code>"

/-- Markup of the minimal fallback success page after the token. -/
def fbPost : String :=
  "</code></p>\n" ++
  "    <p>Please copy this token immediately and store it securely.</p>\n" ++
  "</body>\n</html>"

/-- The minimal page the `catch` inside `getSuccessPageWithToken` returns
when building the styled page throws: a bare HTML shell that still
interpolates the access token. -/
def fallbackSuccessPage (tokenData : SlackTokenData) : String :=
  fbPre ++ jsOr (userTokenOf tokenData) "Error displaying token" ++ fbPost

/-- `getSuccessPageWithToken(tokenData, stateData)`: builds the styled
page, or — when that throws (`renderOk = false`) — falls back to the
minimal token page from its own `catch`.  Also returns the log lines of
the taken path. -/
def getSuccessPageWithToken (tokenData : SlackTokenData) (stateData : StateData)
    (renderOk : Bool) (nowStr : String) : String × List String :=
  if renderOk then
    (styledSuccessPage tokenData stateData nowStr,
     ["📄 Generating success page with token...",
      "✅ Success page data prepared (token hidden in logs)"])
  else
    (fallbackSuccessPage tokenData,
     ["📄 Generating success page with token...",
      "❌ Error generating success page: render failure"])

/-- Flattened rendering of `console.log(Query params:, req.query)`. -/
def queryParamsLog (code state error : Option String) : String :=
  "Query params: code=" ++ interp code ++ " state=" ++ interp state ++
    " error=" ++ interp error

/-- The log lines every `/auth/callback` invocation emits first. -/
def callbackBaseLogs (code state error : Option String) : List String :=
  ["🔄 OAuth callback received",
   queryParamsLog code state error,
   "Request URL: /auth/callback",
   "Request headers: (transport headers)",
   "🔍 Checking for OAuth errors..."]

/-- The `/auth/callback` route handler of the Express server.  Checks, in
source order: the provider `error` parameter, presence of `code` and
`state`, the state map (a non-destructive `get`), then runs the token
exchange against `reply`; on valid token data it deletes the state and
renders the success page (`renderOk` tells whether building the styled
page succeeds).  Every `res.send` without an explicit status carries the
Express default status 200. -/
def callback (cfg : Config) (code state error : Option String)
    (store : StateMap) (reply : HttpReply) (renderOk : Bool)
    (nowStr : String) : Outcome :=
  let baseLogs := callbackBaseLogs code state error
  if truthy error then
    { store := store
      response := .page 200 (getErrorPage ("OAuth Error: " ++ interp error))
      exchanged := false
      logs := baseLogs ++ ["❌ OAuth error from Slack: " ++ interp error] }
  else if !(truthy code) || !(truthy state) then
    { store := store
      response := .page 200 (getErrorPage "Missing authorization code or state")
      exchanged := false
      logs := baseLogs ++
        ["🔍 Checking for code and state...",
         "❌ Missing code or state: code=" ++ toString (truthy code) ++
           " state=" ++ toString (truthy state)] }
  else
    let preLogs := baseLogs ++
      ["🔍 Checking for code and state...", "🔍 Validating state..."]
    match mapGet store (interp state) with
    | none =>
        { store := store
          response := .page 200 (getErrorPage "Invalid or expired state parameter")
          exchanged := false
          logs := preLogs ++
            ["❌ Invalid state: " ++ interp state,
             "Available states: " ++ String.intercalate ", " (store.map Prod.fst)] }
    | some stateData =>
        let stLogs := preLogs ++
          ["✅ State validated: user_id=" ++ stateData.user_id ++
             " user_name=" ++ stateData.user_name,
           "🔄 Starting token exchange..."]
        match exchangeStep cfg code reply with
        | (.error msg, exLogs) =>
            { store := store
              response := .page 200 (getErrorPage ("Token exchange failed: " ++ msg))
              exchanged := true
              logs := stLogs ++ exLogs ++
                ["❌ Token exchange failed: " ++ msg,
                 "❌ OAuth callback error: " ++ msg] }
        | (.ok tokenData, exLogs) =>
            if !(truthy (userTokenOf tokenData)) then
              { store := store
                response := .page 200 (getErrorPage
                  "Token exchange failed: Invalid token data received from Slack")
                exchanged := true
                logs := stLogs ++ exLogs ++
                  ["✅ Token exchange completed", "🔍 Checking token data...",
                   "❌ Invalid token data received: " ++ toString (repr tokenData),
                   "❌ OAuth callback error: Invalid token data received from Slack"] }
            else
              let store' := mapDelete store (interp state)
              let (page, pageLogs) :=
                getSuccessPageWithToken tokenData stateData renderOk nowStr
              { store := store'
                response := .page 200 page
                exchanged := true
                logs := stLogs ++ exLogs ++
                  ["✅ Token exchange completed", "🔍 Checking token data...",
                   "✅ Token data validated", "🧹 State cleaned up",
                   "🎉 OAuth flow completed successfully - showing token to user"] ++
                  pageLogs ++
                  ["📤 Sending response to user...", "✅ Token displayed to user",
                   "🎯 Token generated for user: " ++
                     jsOr (userIdOf tokenData) "Unknown" ++ " (" ++
                     jsOr (some stateData.user_name)
                       (jsOr (userNameOf tokenData) "Unknown") ++ ")"] }

end SlackRelay.Server

namespace SlackRelay.Api

/-- Environment configuration the serverless handler reads:
`SLACK_CLIENT_ID`, `SLACK_CLIENT_SECRET`, `SLACK_REDIRECT_URI`
(no default for the redirect URI in this variant). -/
structure Config where
  clientId : Option String
  clientSecret : Option String
  redirectUri : Option String
  deriving Repr, DecidableEq

/-- The `user_scope` string of `handleAuthStart`: the eleven read/write
scopes, joined with commas.  The source line carries a duplicated
`const userScopes =` token (an editing slip); the intended single
declaration is embedded. -/
def userScopes : String :=
  String.intercalate ","
    ["channels:history", "channels:read", "channels:write", "chat:write",
     "groups:read", "groups:write", "im:history", "im:write",
     "mpim:history", "users:read", "search:read"]

/-- The 500 body `handleAuthStart` sends when configuration is missing. -/
def configErrorBody : String :=
  "<h1>Server Configuration Error</h1><p>Missing Slack credentials</p>"

/-- The provider authorization URL `handleAuthStart` builds. -/
def authUrl (cfg : Config) (state : String) : String :=
  "https://slack.com/oauth/v2/authorize?" ++
    "client_id=" ++ interp cfg.clientId ++ "&" ++
    "user_scope=" ++ encodeURIComponent userScopes ++ "&" ++
    "redirect_uri=" ++ encodeURIComponent (interp cfg.redirectUri) ++ "&" ++
    "state=" ++ state

/-- `handleAuthStart` of the serverless handler: mint the state, store
the raw (`|| `-defaulted, unsanitized) query parameters, then check the
configuration — 500 if the client id or redirect URI is absent, otherwise
redirect to the provider. -/
def handleAuthStart (cfg : Config) (state : String)
    (user_id user_name : Option String) (now : Int) (store : StateMap) :
    StateMap × Response :=
  let userId := jsOr user_id ""
  let userName := jsOr user_name ""
  let store' := mapSet store state
    { user_id := userId, user_name := userName, timestamp := now }
  if !(truthy cfg.clientId) || !(truthy cfg.redirectUri) then
    (store', .page 500 configErrorBody)
  else
    (store', .redirect 302 (authUrl cfg state))

/-- Serverless success page markup before the token (abbreviated). -/
def ap1 : String :=
  "<!DOCTYPE html><html><head><title>🎉 Token Generated Successfully</title>" ++
  "</head><body><h1>🎉 Your Slack Token is Ready!</h1>" ++
  "<div class=\"token-display\" id=\"tokenDisplay\">"

/-- Serverless success page markup between the token and the user name. -/
def ap2 : String := "</div><p><strong>User:</strong> "

/-- Serverless success page markup between user name and team name. -/
def ap3 : String := "</p><p><strong>Team:</strong> "

/-- Serverless success page markup between team name and scopes. -/
def ap4 : String := "</p><p><strong>Permissions:</strong> "

/-- Serverless success page markup between scopes and generation time. -/
def ap5 : String := "</p><p><strong>Generated:</strong> "

/-- Serverless success page markup after the generation time. -/
def ap6 : String := "</p></body></html>"

/-- The success page of `handleAuthCallback`: interpolation points in
source order are token, user name, team name, scopes (commas spaced),
generation time.  The fallback chains mirror the `const` block. -/
def successPage (tokenData : SlackTokenData) (stateData : StateData)
    (nowStr : String) : String :=
  let userToken := jsOr (userTokenOf tokenData) "No token generated"
  let userName := jsOr (userNameOf tokenData)
    (jsOr (some stateData.user_name) "Unknown User")
  let teamName := jsOr (teamNameOf tokenData) "Unknown Team"
  let scopes := jsOr (userScopeOf tokenData) "No scopes"
  ap1 ++ userToken ++
    (ap2 ++ userName ++ ap3 ++ teamName ++ ap4 ++
      (scopes.replace "," ", ") ++ ap5 ++ nowStr ++ ap6)

/-- `handleAuthCallback` of the serverless handler.  Checks, in source
order: the `error` parameter (400), presence of `code` and `state` (400),
the state map via a non-destructive `get` (400); then it posts to the
token endpoint and reads `tokenResponse.json()` — the HTTP status of the
reply is never examined in this variant.  `ok: false` throws into the
`catch`, which answers 500; on `ok: true` the state is deleted and the
success page is sent with 200. -/
def handleAuthCallback (code state error : Option String)
    (store : StateMap) (reply : HttpReply) (nowStr : String) : Outcome :=
  let baseLogs := ["Request: GET /auth/callback"]
  if truthy error then
    { store := store
      response := .page 400 ("<h1>❌ OAuth Error</h1><p>" ++ interp error ++
        "</p><a href=\"/\">Try Again</a>")
      exchanged := false
      logs := baseLogs }
  else if !(truthy code) || !(truthy state) then
    { store := store
      response := .page 400
        "<h1>❌ Missing Parameters</h1><p>Missing code or state</p><a href=\"/\">Try Again</a>"
      exchanged := false
      logs := baseLogs }
  else
    match mapGet store (interp state) with
    | none =>
        { store := store
          response := .page 400
            "<h1>❌ Invalid State</h1><p>State expired or invalid</p><a href=\"/\">Try Again</a>"
          exchanged := false
          logs := baseLogs }
    | some stateData =>
        let tokenData := reply.json
        if !tokenData.ok then
          let msg := jsOr tokenData.error "Token exchange failed"
          { store := store
            response := .page 500 ("<h1>❌ Token Exchange Failed</h1><p>" ++ msg ++
              "</p><a href=\"/\">Try Again</a>")
            exchanged := true
            logs := baseLogs ++ ["Token exchange error: " ++ msg] }
        else
          let store' := mapDelete store (interp state)
          { store := store'
            response := .page 200 (successPage tokenData stateData nowStr)
            exchanged := true
            logs := baseLogs }

end SlackRelay.Api

namespace SlackRelay

/-- Replace the access token inside a token-endpoint reply, leaving every
other field unchanged (used to state that the emitted logs do not depend
on the token value). -/
def setToken (r : HttpReply) (t : String) : HttpReply :=
  { r with json := { r.json with
      authed_user := r.json.authed_user.map
        (fun u => { u with access_token := some t }) } }

end SlackRelay

namespace SlackRelay.Fixtures

/-- A fully-populated server configuration for concrete runs. -/
def cfgS : Server.Config :=
  { clientId := some "cid", clientSecret := some "sec",
    redirectUriEnv := some "https://example.test/auth/callback", port := none }

/-- A server configuration with the client id absent. -/
def cfgSNoId : Server.Config :=
  { clientId := none, clientSecret := some "sec",
    redirectUriEnv := some "https://example.test/auth/callback", port := none }

/-- A fully-populated serverless configuration. -/
def cfgA : Api.Config :=
  { clientId := some "cid", clientSecret := some "sec",
    redirectUri := some "https://example.test/api/auth/callback" }

/-- A serverless configuration with the redirect URI absent. -/
def cfgANoUri : Api.Config :=
  { clientId := some "cid", clientSecret := some "sec", redirectUri := none }

/-- A state map holding one pending entry for state token `s1`. -/
def store1 : StateMap := [("s1", { user_id := "u1", user_name := "Ann", timestamp := 0 })]

/-- A reply whose HTTP layer succeeded but whose body reports the logical
failure `invalid_code`. -/
def failReply : HttpReply :=
  { ok := true, status := 200, statusText := "OK", text := "",
    json := { ok := false, error := some "invalid_code",
              authed_user := none, team := none } }

/-- The authorized-user object of the successful fixture reply. -/
def okUser : AuthedUser :=
  { access_token := some "xoxp-test", id := some "U1",
    name := some "Test", scope := some "a,b" }

/-- A fully successful token-exchange reply. -/
def okReply : HttpReply :=
  { ok := true, status := 200, statusText := "OK", text := "",
    json := { ok := true, error := none,
              authed_user := some okUser, team := some { name := some "T" } } }

/-- A reply with a failing HTTP status whose body nonetheless parses with
`ok: true` and a token. -/
def badHttpOkJson : HttpReply :=
  { okReply with ok := false, status := 500, statusText := "Internal Server Error",
                 text := "upstream error" }

end SlackRelay.Fixtures

namespace SlackRelay

/-- Looking a key up right after setting it yields the stored value. -/
theorem mapGet_mapSet_self (m : StateMap) (k : String) (v : StateData) :
    mapGet (mapSet m k v) k = some v := by
  induction m with
  | nil => simp [mapSet, mapGet]
  | cons e rest ih =>
      obtain ⟨k', v'⟩ := e
      by_cases h : k' = k
      · simp [mapSet, mapGet, h]
      · simp [mapSet, mapGet, h, ih]

/-- Setting a key that is not present grows the map by one entry. -/
theorem mapSet_length_of_get_none (m : StateMap) (k : String) (v : StateData)
    (h : mapGet m k = none) : (mapSet m k v).length = m.length + 1 := by
  induction m with
  | nil => simp [mapSet]
  | cons e rest ih =>
      obtain ⟨k', v'⟩ := e
      by_cases hk : k' = k
      · simp [mapGet, hk] at h
      · simp [mapGet, hk] at h
        simp [mapSet, hk, ih h]

/-- C5: `cleanupStates(now)` deletes exactly the entries whose age
`now - createdAt` strictly exceeds the fixed ten-minute TTL, and keeps
every other entry — same key, same metadata — the surviving entries
forming a sublist of the original map. -/
theorem c5_sweep_exact (now : Int) (store : StateMap) (k : String) (d : StateData) :
    ((k, d) ∈ Server.cleanupStates now store ↔
      (k, d) ∈ store ∧ now - d.timestamp ≤ Server.tenMinutes) ∧
    List.Sublist (Server.cleanupStates now store) store := by
  constructor
  · simp [Server.cleanupStates, List.mem_filter, not_lt]
  · exact List.filter_sublist _

/-- C5 witness: a concrete sweep at time 700000 over a map with one
eleven-minute-old entry and one five-minute-old entry keeps exactly the
younger entry. -/
theorem c5_sweep_exact_witness :
    ("b", { user_id := "u", user_name := "n", timestamp := 200000 }) ∈
      Server.cleanupStates 700000
        [("a", { user_id := "u", user_name := "n", timestamp := 0 }),
         ("b", { user_id := "u", user_name := "n", timestamp := 200000 })] ∧
    ("a", { user_id := "u", user_name := "n", timestamp := 0 }) ∉
      Server.cleanupStates 700000
        [("a", { user_id := "u", user_name := "n", timestamp := 0 }),
         ("b", { user_id := "u", user_name := "n", timestamp := 200000 })] := by
  constructor
  · exact ((c5_sweep_exact 700000
      [("a", { user_id := "u", user_name := "n", timestamp := 0 }),
       ("b", { user_id := "u", user_name := "n", timestamp := 200000 })]
      "b" { user_id := "u", user_name := "n", timestamp := 200000 }).1).mpr
      ⟨by decide, by decide⟩
  · intro hmem
    have h := ((c5_sweep_exact 700000
      [("a", { user_id := "u", user_name := "n", timestamp := 0 }),
       ("b", { user_id := "u", user_name := "n", timestamp := 200000 })]
      "a" { user_id := "u", user_name := "n", timestamp := 0 }).1).mp hmem
    exact absurd h.2 (by decide)

/-- C10: the serverless `handleAuthStart` inserts the pending entry
before the configuration check, so even when it answers the 500
configuration error the state map has gained the new entry. -/
theorem c10_insert_before_config_check (cfg : Api.Config) (state : String)
    (user_id user_name : Option String) (now : Int) (store : StateMap)
    (hcfg : (truthy cfg.clientId && truthy cfg.redirectUri) = false) :
    (Api.handleAuthStart cfg state user_id user_name now store).2 =
      .page 500 Api.configErrorBody ∧
    mapGet (Api.handleAuthStart cfg state user_id user_name now store).1 state =
      some { user_id := jsOr user_id "", user_name := jsOr user_name "",
             timestamp := now } ∧
    (mapGet store state = none →
      (Api.handleAuthStart cfg state user_id user_name now store).1.length =
        store.length + 1) := by
  have hcond : (!(truthy cfg.clientId) || !(truthy cfg.redirectUri)) = true := by
    rw [← Bool.not_and, hcfg]; rfl
  refine ⟨?_, ?_, fun h => ?_⟩
  · simp [Api.handleAuthStart, hcond]
  · simp [Api.handleAuthStart, hcond, mapGet_mapSet_self]
  · simp [Api.handleAuthStart, hcond, mapSet_length_of_get_none _ _ _ h]

/-- C10 witness: with the redirect URI absent, a concrete start call
answers the 500 configuration error yet grows the store by one entry. -/
theorem c10_insert_before_config_check_witness :
    (truthy Fixtures.cfgANoUri.clientId && truthy Fixtures.cfgANoUri.redirectUri) = false ∧
    mapGet Fixtures.store1 "s2" = none ∧
    (Api.handleAuthStart Fixtures.cfgANoUri "s2" (some "u") none 5 Fixtures.store1).2 =
      .page 500 Api.configErrorBody ∧
    (Api.handleAuthStart Fixtures.cfgANoUri "s2" (some "u") none 5 Fixtures.store1).1.length =
      Fixtures.store1.length + 1 := by
  have h := c10_insert_before_config_check Fixtures.cfgANoUri "s2" (some "u") none 5
    Fixtures.store1 (by decide)
  exact ⟨by decide, by decide, h.1, h.2.2 (by decide)⟩

/-- C7: the serverless `handleAuthStart` answers the 500 configuration
error (and no redirect) exactly when the client id or redirect URI is
absent, and otherwise issues a 302 redirect to the provider URL, which
carries the minted state; the standalone server checks its credentials at
startup instead, and once up its start route always issues the 302
redirect carrying the minted state (its redirect URI has a default). -/
theorem c7_start_flow_configuration (cfgA : Api.Config) (cfgS : Server.Config)
    (state : String) (user_id user_name : Option String) (now : Int)
    (store : StateMap) :
    ((truthy cfgA.clientId && truthy cfgA.redirectUri) = false →
      (Api.handleAuthStart cfgA state user_id user_name now store).2 =
        .page 500 Api.configErrorBody ∧
      (Api.handleAuthStart cfgA state user_id user_name now store).2.isRedirect
        = false) ∧
    ((truthy cfgA.clientId && truthy cfgA.redirectUri) = true →
      (Api.handleAuthStart cfgA state user_id user_name now store).2 =
        .redirect 302 (Api.authUrl cfgA state)) ∧
    (∃ pre, Api.authUrl cfgA state = pre ++ "state=" ++ state) ∧
    (Server.startupOk cfgS = true →
      (Server.authStart cfgS state user_id user_name now store).2.1 =
        .redirect 302 (Server.authUrl cfgS state)) ∧
    (∃ pre, Server.authUrl cfgS state = pre ++ "state=" ++ state) := by
  refine ⟨fun hcfg => ?_, fun hcfg => ?_, ⟨_, rfl⟩, fun _ => ?_, ⟨_, rfl⟩⟩
  · have hcond : (!(truthy cfgA.clientId) || !(truthy cfgA.redirectUri)) = true := by
      rw [← Bool.not_and, hcfg]; rfl
    simp [Api.handleAuthStart, hcond, Response.isRedirect]
  · have hcond : (!(truthy cfgA.clientId) || !(truthy cfgA.redirectUri)) = false := by
      rw [← Bool.not_and, hcfg]; rfl
    simp [Api.handleAuthStart, hcond]
  · simp [Server.authStart]

/-- C7 witness: a concrete misconfigured serverless start answers 500,
and concrete well-configured starts of both variants redirect with the
state in the URL. -/
theorem c7_start_flow_configuration_witness :
    (truthy Fixtures.cfgANoUri.clientId && truthy Fixtures.cfgANoUri.redirectUri)
      = false ∧
    (Api.handleAuthStart Fixtures.cfgANoUri "s2" none none 5 []).2 =
      .page 500 Api.configErrorBody ∧
    (truthy Fixtures.cfgA.clientId && truthy Fixtures.cfgA.redirectUri) = true ∧
    (Api.handleAuthStart Fixtures.cfgA "s2" none none 5 []).2 =
      .redirect 302 (Api.authUrl Fixtures.cfgA "s2") ∧
    Server.startupOk Fixtures.cfgS = true ∧
    (Server.authStart Fixtures.cfgS "s2" none none 5 []).2.1 =
      .redirect 302 (Server.authUrl Fixtures.cfgS "s2") := by
  refine ⟨by decide, ?_, by decide, ?_, by decide, ?_⟩
  · exact (c7_start_flow_configuration Fixtures.cfgANoUri Fixtures.cfgS "s2" none none
      5 []).1 (by decide) |>.1
  · exact (c7_start_flow_configuration Fixtures.cfgA Fixtures.cfgS "s2" none none
      5 []).2.1 (by decide)
  · exact (c7_start_flow_configuration Fixtures.cfgA Fixtures.cfgS "s2" none none
      5 []).2.2.2.1 (by decide)

/-- C2: both callback handlers validate in a fixed order, each failure
terminal: a present provider `error` parameter yields the
provider-reported failure page; otherwise a missing `code` or `state`
yields the malformed-callback page; otherwise a state absent from the
store yields the invalid-state page; in all three cases no token-exchange
call is issued. -/
theorem c2_validation_order (cfg : Server.Config) (code state error : Option String)
    (store : StateMap) (reply : HttpReply) (renderOk : Bool) (nowStr : String) :
    (truthy error = true →
      (Server.callback cfg code state error store reply renderOk nowStr).response =
        .page 200 (Server.getErrorPage ("OAuth Error: " ++ interp error)) ∧
      (Server.callback cfg code state error store reply renderOk nowStr).exchanged
        = false ∧
      (Api.handleAuthCallback code state error store reply nowStr).response =
        .page 400 ("<h1>❌ OAuth Error</h1><p>" ++ interp error ++
          "</p><a href=\"/\">Try Again</a>") ∧
      (Api.handleAuthCallback code state error store reply nowStr).exchanged
        = false) ∧
    (truthy error = false → (!(truthy code) || !(truthy state)) = true →
      (Server.callback cfg code state error store reply renderOk nowStr).response =
        .page 200 (Server.getErrorPage "Missing authorization code or state") ∧
      (Server.callback cfg code state error store reply renderOk nowStr).exchanged
        = false ∧
      (Api.handleAuthCallback code state error store reply nowStr).response =
        .page 400 ("<h1>❌ Missing Parameters</h1><p>Missing code or state</p>" ++
          "<a href=\"/\">Try Again</a>") ∧
      (Api.handleAuthCallback code state error store reply nowStr).exchanged
        = false) ∧
    (truthy error = false → truthy code = true → truthy state = true →
      mapGet store (interp state) = none →
      (Server.callback cfg code state error store reply renderOk nowStr).response =
        .page 200 (Server.getErrorPage "Invalid or expired state parameter") ∧
      (Server.callback cfg code state error store reply renderOk nowStr).exchanged
        = false ∧
      (Api.handleAuthCallback code state error store reply nowStr).response =
        .page 400 ("<h1>❌ Invalid State</h1><p>State expired or invalid</p>" ++
          "<a href=\"/\">Try Again</a>") ∧
      (Api.handleAuthCallback code state error store reply nowStr).exchanged
        = false) := by
  refine ⟨fun he => ?_, fun he hmiss => ?_, fun he hc hs hm => ?_⟩
  · refine ⟨?_, ?_, ?_, ?_⟩ <;>
      simp [Server.callback, Api.handleAuthCallback, he]
  · refine ⟨?_, ?_, ?_, ?_⟩ <;>
      simp [Server.callback, Api.handleAuthCallback, he, hmiss]
  · refine ⟨?_, ?_, ?_, ?_⟩ <;>
      simp [Server.callback, Api.handleAuthCallback, he, hc, hs, hm]

/-- C2 witness: concrete runs of the three failure cases — provider
error, missing parameters, unknown state `deadbeef` — produce the stated
pages and never issue an exchange call. -/
theorem c2_validation_order_witness :
    ((Server.callback Fixtures.cfgS (some "abc") (some "s1") (some "access_denied")
        Fixtures.store1 Fixtures.okReply true "t").exchanged = false) ∧
    ((Server.callback Fixtures.cfgS none (some "s1") none Fixtures.store1
        Fixtures.okReply true "t").response =
      .page 200 (Server.getErrorPage "Missing authorization code or state")) ∧
    ((Api.handleAuthCallback (some "abc") (some "deadbeef") none Fixtures.store1
        Fixtures.okReply "t").response =
      .page 400 ("<h1>❌ Invalid State</h1><p>State expired or invalid</p>" ++
        "<a href=\"/\">Try Again</a>")) ∧
    ((Api.handleAuthCallback (some "abc") (some "deadbeef") none Fixtures.store1
        Fixtures.okReply "t").exchanged = false) := by
  have h1 := (c2_validation_order Fixtures.cfgS (some "abc") (some "s1")
    (some "access_denied") Fixtures.store1 Fixtures.okReply true "t").1 (by decide)
  have h2 := (c2_validation_order Fixtures.cfgS none (some "s1") none
    Fixtures.store1 Fixtures.okReply true "t").2.1 (by decide) (by decide)
  have h3 := (c2_validation_order Fixtures.cfgS (some "abc") (some "deadbeef") none
    Fixtures.store1 Fixtures.okReply true "t").2.2 (by decide) (by decide) (by decide)
    (by decide)
  exact ⟨h1.2.1, h2.1, h3.2.2.1, h3.2.2.2⟩

/-- C1 counterexample: after a failed exchange the state entry is still
in the store, and a second callback with the same state issues a second
exchange attempt instead of answering the invalid-or-expired-state
error — the handler does not consume the state before the exchange. -/
theorem c1_replay_counterexample :
    (Server.callback Fixtures.cfgS (some "abc") (some "s1") none Fixtures.store1
      Fixtures.failReply true "t").store = Fixtures.store1 ∧
    (Server.callback Fixtures.cfgS (some "abc") (some "s1") none
      (Server.callback Fixtures.cfgS (some "abc") (some "s1") none Fixtures.store1
        Fixtures.failReply true "t").store
      Fixtures.failReply true "t").exchanged = true ∧
    (Server.callback Fixtures.cfgS (some "abc") (some "s1") none
      (Server.callback Fixtures.cfgS (some "abc") (some "s1") none Fixtures.store1
        Fixtures.failReply true "t").store
      Fixtures.failReply true "t").response ≠
      .page 200 (Server.getErrorPage "Invalid or expired state parameter") := by
  refine ⟨by decide, by decide, by decide⟩

/-- C1 (amended): both callback handlers look the state up without
deleting it before the exchange and delete it only after a successful
exchange; after any exchange failure the entry is retained, so a second
callback with the same state performs a second exchange attempt. -/
theorem c1_consume_only_after_success (cfg : Server.Config)
    (code state error : Option String) (store : StateMap) (reply : HttpReply)
    (renderOk : Bool) (nowStr : String) (sd : StateData)
    (he : truthy error = false) (hc : truthy code = true) (hs : truthy state = true)
    (hm : mapGet store (interp state) = some sd) :
    (Server.callback cfg code state error store reply renderOk nowStr).exchanged
      = true ∧
    ((reply.ok = false ∨ reply.json.ok = false ∨
        truthy (userTokenOf reply.json) = false) →
      (Server.callback cfg code state error store reply renderOk nowStr).store
        = store) ∧
    (reply.ok = true → reply.json.ok = true →
      truthy (userTokenOf reply.json) = true →
      (Server.callback cfg code state error store reply renderOk nowStr).store =
        mapDelete store (interp state)) ∧
    (reply.json.ok = false →
      (Api.handleAuthCallback code state error store reply nowStr).store = store) ∧
    (reply.json.ok = true →
      (Api.handleAuthCallback code state error store reply nowStr).store =
        mapDelete store (interp state)) ∧
    (Api.handleAuthCallback code state error store reply nowStr).exchanged
      = true := by
  cases hok : reply.ok <;> cases hjok : reply.json.ok <;>
    cases htok : truthy (userTokenOf reply.json) <;>
    simp [Server.callback, Api.handleAuthCallback, Server.exchangeStep,
      Server.getSuccessPageWithToken, he, hc, hs, hm, hok, hjok, htok]

/-- C1 witness: on concrete runs, a failed exchange leaves the concrete
store unchanged and a successful one deletes the consumed state. -/
theorem c1_consume_only_after_success_witness :
    truthy (some "abc") = true ∧
    mapGet Fixtures.store1 (interp (some "s1")) =
      some { user_id := "u1", user_name := "Ann", timestamp := 0 } ∧
    (Server.callback Fixtures.cfgS (some "abc") (some "s1") none Fixtures.store1
      Fixtures.failReply true "t").store = Fixtures.store1 ∧
    (Server.callback Fixtures.cfgS (some "abc") (some "s1") none Fixtures.store1
      Fixtures.okReply true "t").store =
      mapDelete Fixtures.store1 (interp (some "s1")) := by
  have hfail := c1_consume_only_after_success Fixtures.cfgS (some "abc") (some "s1")
    none Fixtures.store1 Fixtures.failReply true "t"
    { user_id := "u1", user_name := "Ann", timestamp := 0 }
    (by decide) (by decide) (by decide) (by decide)
  have hok := c1_consume_only_after_success Fixtures.cfgS (some "abc") (some "s1")
    none Fixtures.store1 Fixtures.okReply true "t"
    { user_id := "u1", user_name := "Ann", timestamp := 0 }
    (by decide) (by decide) (by decide) (by decide)
  exact ⟨by decide, by decide, hfail.2.1 (Or.inr (Or.inl (by decide))),
    hok.2.2.1 (by decide) (by decide) (by decide)⟩

/-- C4 counterexample: the serverless callback never examines the HTTP
status of the exchange reply — on a reply with a failing HTTP status
whose body still parses with `ok: true` it renders the success page
instead of failing with an exchange error. -/
theorem c4_http_status_ignored_counterexample :
    Fixtures.badHttpOkJson.ok = false ∧
    Fixtures.badHttpOkJson.status = 500 ∧
    (Api.handleAuthCallback (some "abc") (some "s1") none Fixtures.store1
      Fixtures.badHttpOkJson "t").exchanged = true ∧
    (Api.handleAuthCallback (some "abc") (some "s1") none Fixtures.store1
      Fixtures.badHttpOkJson "t").response =
      .page 200 (Api.successPage Fixtures.badHttpOkJson.json
        { user_id := "u1", user_name := "Ann", timestamp := 0 } "t") := by
  refine ⟨by decide, by decide, by decide, by rfl⟩

/-- C4 (amended): the standalone server`s `exchangeCodeForToken` issues
exactly one POST and consumes exactly one reply (no retry), fails with an
exchange error carrying the HTTP diagnostic on a non-success status and
the provider`s `error` string on a logical failure, and returns the
parsed result on success; the serverless variant likewise makes a single
attempt and carries the provider diagnostic, but checks only the logical
`ok` flag — its outcome is invariant under the reply`s HTTP layer. -/
theorem c4_single_exchange_attempt (cfg : Server.Config)
    (code state error : Option String) (r : HttpReply) (rest : List HttpReply)
    (store : StateMap) (nowStr : String) (sd : StateData)
    (he : truthy error = false) (hc : truthy code = true) (hs : truthy state = true)
    (hm : mapGet store (interp state) = some sd) :
    (Server.exchangeRun cfg code (r :: rest)).2.1 =
      [Server.exchangeRequest cfg (interp code)] ∧
    (Server.exchangeRun cfg code (r :: rest)).2.2 = rest ∧
    (r.ok = false →
      (Server.exchangeRun cfg code (r :: rest)).1.1 =
        .error ("HTTP error! status: " ++ toString r.status ++ " - " ++ r.text)) ∧
    (r.ok = true → r.json.ok = false →
      (Server.exchangeRun cfg code (r :: rest)).1.1 =
        .error ("OAuth exchange failed: " ++ interp r.json.error)) ∧
    (r.ok = true → r.json.ok = true →
      (Server.exchangeRun cfg code (r :: rest)).1.1 = .ok r.json) ∧
    (r.json.ok = false →
      (Api.handleAuthCallback code state error store r nowStr).response =
        .page 500 ("<h1>❌ Token Exchange Failed</h1><p>" ++
          jsOr r.json.error "Token exchange failed" ++
          "</p><a href=\"/\">Try Again</a>") ∧
      (Api.handleAuthCallback code state error store r nowStr).exchanged = true) ∧
    (∀ (b : Bool) (n : Nat) (st tx : String),
      Api.handleAuthCallback code state error store
        { r with ok := b, status := n, statusText := st, text := tx } nowStr =
      Api.handleAuthCallback code state error store r nowStr) := by
  refine ⟨rfl, rfl, fun hok => ?_, fun hok hjok => ?_, fun hok hjok => ?_,
    fun hjok => ?_, fun b n st tx => ?_⟩
  · simp [Server.exchangeRun, Server.exchangeStep, hok]
  · simp [Server.exchangeRun, Server.exchangeStep, hok, hjok]
  · simp [Server.exchangeRun, Server.exchangeStep, hok, hjok]
  · constructor <;> simp [Api.handleAuthCallback, he, hc, hs, hm, hjok]
  · simp [Api.handleAuthCallback]

/-- C4 witness: concrete replies exercise the HTTP-failure, logical
failure and success cases of the server exchange, and a concrete
serverless run carries the `invalid_code` diagnostic. -/
theorem c4_single_exchange_attempt_witness :
    (Server.exchangeRun Fixtures.cfgS (some "abc") [Fixtures.badHttpOkJson]).2.2
      = [] ∧
    (Server.exchangeRun Fixtures.cfgS (some "abc") [Fixtures.badHttpOkJson]).1.1 =
      .error ("HTTP error! status: " ++ toString (500 : Nat) ++ " - upstream error") ∧
    (Server.exchangeRun Fixtures.cfgS (some "abc") [Fixtures.failReply]).1.1 =
      .error ("OAuth exchange failed: invalid_code") ∧
    (Server.exchangeRun Fixtures.cfgS (some "abc") [Fixtures.okReply]).1.1 =
      .ok Fixtures.okReply.json ∧
    (Api.handleAuthCallback (some "abc") (some "s1") none Fixtures.store1
      Fixtures.failReply "t").response =
      .page 500 ("<h1>❌ Token Exchange Failed</h1><p>" ++
        jsOr Fixtures.failReply.json.error "Token exchange failed" ++
        "</p><a href=\"/\">Try Again</a>") := by
  have hbad := c4_single_exchange_attempt Fixtures.cfgS (some "abc") (some "s1") none
    Fixtures.badHttpOkJson [] Fixtures.store1 "t"
    { user_id := "u1", user_name := "Ann", timestamp := 0 }
    (by decide) (by decide) (by decide) (by decide)
  have hfail := c4_single_exchange_attempt Fixtures.cfgS (some "abc") (some "s1") none
    Fixtures.failReply [] Fixtures.store1 "t"
    { user_id := "u1", user_name := "Ann", timestamp := 0 }
    (by decide) (by decide) (by decide) (by decide)
  have hok := c4_single_exchange_attempt Fixtures.cfgS (some "abc") (some "s1") none
    Fixtures.okReply [] Fixtures.store1 "t"
    { user_id := "u1", user_name := "Ann", timestamp := 0 }
    (by decide) (by decide) (by decide) (by decide)
  refine ⟨hbad.2.1, ?_, ?_, hok.2.2.2.2.1 (by decide) (by decide),
    (hfail.2.2.2.2.2.1 (by decide)).1⟩
  · have := hbad.2.2.1 (by decide)
    simpa [Fixtures.badHttpOkJson, Fixtures.okReply] using this
  · have := hfail.2.2.2.1 (by decide) (by decide)
    simpa [Fixtures.failReply] using this

/-- Sanitized inputs are capped at 100 characters. -/
theorem validateInput_length_le (input : Option String) :
    (Server.validateInput input).length ≤ 100 := by
  match input with
  | none => simp [Server.validateInput]
  | some s =>
      by_cases h : s = ""
      · simp [Server.validateInput, h]
      · simp only [Server.validateInput, if_neg h]
        calc (String.mk (((Server.jsTrim s).data.take 100).filter
                (fun c => !(Server.isStrippedChar c)))).length
            = (((Server.jsTrim s).data.take 100).filter
                (fun c => !(Server.isStrippedChar c))).length := rfl
          _ ≤ ((Server.jsTrim s).data.take 100).length := List.length_filter_le _ _
          _ ≤ 100 := List.length_take_le _ _

/-- Sanitized inputs contain none of the stripped characters
`< > \" ' &`. -/
theorem validateInput_no_stripped (input : Option String) (c : Char)
    (hc : c ∈ (Server.validateInput input).data) :
    Server.isStrippedChar c = false := by
  match input with
  | none => simp [Server.validateInput] at hc
  | some s =>
      by_cases h : s = ""
      · simp [Server.validateInput, h] at hc
      · simp only [Server.validateInput, if_neg h] at hc
        have := (List.mem_filter.mp hc).2
        simpa using this

/-- C6 counterexample: the serverless `handleAuthStart` stores the raw
query parameter — for the input `\" <b> \"` it stores `\" <b> \"` itself,
while the sanitized form (trimmed, angle brackets stripped) is `\"b\"`,
so the stored value is not the sanitized input. -/
theorem c6_unsanitized_store_counterexample :
    mapGet (Api.handleAuthStart Fixtures.cfgA "s2" (some " <b> ") none 0 []).1 "s2" =
      some { user_id := " <b> ", user_name := "", timestamp := 0 } ∧
    Server.validateInput (some " <b> ") = "b" ∧
    (" <b> " : String) ≠ "b" := by
  refine ⟨by decide, by decide, by decide⟩

/-- C6 (amended): the standalone server stores the sanitized inputs —
trimmed, capped at 100 characters, with the characters `< > \" ' &`
stripped — and stores the empty string for an absent parameter; the
serverless variant stores the parameter raw, defaulting an absent one to
the empty string; both flows proceed (the server start route redirects
unconditionally, the serverless one redirects whenever configured). -/
theorem c6_sanitization_amended (cfgS : Server.Config) (cfgA : Api.Config)
    (state : String) (user_id user_name : Option String) (now : Int)
    (store : StateMap) :
    (Server.authStart cfgS state user_id user_name now store).1 =
      mapSet store state
        { user_id := Server.validateInput user_id,
          user_name := Server.validateInput user_name, timestamp := now } ∧
    (Server.validateInput user_id).length ≤ 100 ∧
    (∀ c ∈ (Server.validateInput user_id).data,
      Server.isStrippedChar c = false) ∧
    Server.validateInput none = "" ∧
    (Server.authStart cfgS state user_id user_name now store).2.1.isRedirect
      = true ∧
    (Api.handleAuthStart cfgA state user_id user_name now store).1 =
      mapSet store state
        { user_id := jsOr user_id "", user_name := jsOr user_name "",
          timestamp := now } ∧
    jsOr none "" = "" ∧
    ((truthy cfgA.clientId && truthy cfgA.redirectUri) = true →
      (Api.handleAuthStart cfgA state user_id user_name now store).2.isRedirect
        = true) := by
  refine ⟨rfl, validateInput_length_le user_id,
    fun c hc => validateInput_no_stripped user_id c hc, rfl, rfl, ?_, rfl,
    fun hcfg => ?_⟩
  · simp only [Api.handleAuthStart]
    split <;> rfl
  · have hcond : (!(truthy cfgA.clientId) || !(truthy cfgA.redirectUri)) = false := by
      rw [← Bool.not_and, hcfg]; rfl
    simp [Api.handleAuthStart, hcond, Response.isRedirect]

/-- C6 witness: a concrete start with both parameters absent stores empty
strings in both variants and still proceeds to the redirect. -/
theorem c6_sanitization_amended_witness :
    (Server.authStart Fixtures.cfgS "s2" none none 7 []).1 =
      mapSet [] "s2"
        { user_id := Server.validateInput none,
          user_name := Server.validateInput none, timestamp := 7 } ∧
    Server.validateInput none = "" ∧
    (Server.authStart Fixtures.cfgS "s2" none none 7 []).2.1.isRedirect = true ∧
    (truthy Fixtures.cfgA.clientId && truthy Fixtures.cfgA.redirectUri) = true ∧
    (Api.handleAuthStart Fixtures.cfgA "s2" none none 7 []).2.isRedirect = true := by
  have h := c6_sanitization_amended Fixtures.cfgS Fixtures.cfgA "s2" none none 7 []
  exact ⟨h.1, h.2.2.2.1, h.2.2.2.2.1, by decide, h.2.2.2.2.2.2.2 (by decide)⟩

/-- C8 counterexample: the standalone server sends its failure pages with
`res.send` and no explicit status, so a provider-error callback is
answered with the Express default status 200, not 400 or 500. -/
theorem c8_error_status_counterexample :
    (Server.callback Fixtures.cfgS none none (some "access_denied") []
      Fixtures.okReply true "t").response =
      .page 200 (Server.getErrorPage "OAuth Error: access_denied") ∧
    (Server.callback Fixtures.cfgS none none (some "access_denied") []
      Fixtures.okReply true "t").response.statusOf = 200 ∧
    (200 : Nat) ≠ 400 ∧ (200 : Nat) ≠ 500 := by
  refine ⟨by rfl, by decide, by decide, by decide⟩

/-- C8 (amended): the serverless callback carries 400 for a provider
error, a malformed callback and an invalid state, 500 for an exchange
failure, and 200 with the token page on success; the standalone server
instead answers every modelled callback response — failures included —
with status 200. -/
theorem c8_response_statuses_amended (cfg : Server.Config)
    (code state error : Option String) (store : StateMap) (reply : HttpReply)
    (renderOk : Bool) (nowStr : String) :
    (Server.callback cfg code state error store reply renderOk nowStr).response.statusOf
      = 200 ∧
    (truthy error = true →
      (Api.handleAuthCallback code state error store reply nowStr).response.statusOf
        = 400) ∧
    (truthy error = false → (!(truthy code) || !(truthy state)) = true →
      (Api.handleAuthCallback code state error store reply nowStr).response.statusOf
        = 400) ∧
    (truthy error = false → truthy code = true → truthy state = true →
      mapGet store (interp state) = none →
      (Api.handleAuthCallback code state error store reply nowStr).response.statusOf
        = 400) ∧
    (∀ sd, truthy error = false → truthy code = true → truthy state = true →
      mapGet store (interp state) = some sd → reply.json.ok = false →
      (Api.handleAuthCallback code state error store reply nowStr).response.statusOf
        = 500) ∧
    (∀ sd, truthy error = false → truthy code = true → truthy state = true →
      mapGet store (interp state) = some sd → reply.json.ok = true →
      (Api.handleAuthCallback code state error store reply nowStr).response.statusOf
        = 200) := by
  refine ⟨?_, fun he => ?_, fun he hmiss => ?_, fun he hc hs hm => ?_,
    fun sd he hc hs hm hjok => ?_, fun sd he hc hs hm hjok => ?_⟩
  · cases he : truthy error <;> cases hc : truthy code <;>
      cases hs : truthy state <;> cases hm : mapGet store (interp state) <;>
      cases hok : reply.ok <;> cases hjok : reply.json.ok <;>
      cases htok : truthy (userTokenOf reply.json) <;> cases renderOk <;>
      simp [Server.callback, Server.exchangeStep, Server.getSuccessPageWithToken,
        Response.statusOf, he, hc, hs, hm, hok, hjok, htok]
  · simp [Api.handleAuthCallback, he, Response.statusOf]
  · simp [Api.handleAuthCallback, he, hmiss, Response.statusOf]
  · simp [Api.handleAuthCallback, he, hc, hs, hm, Response.statusOf]
  · simp [Api.handleAuthCallback, he, hc, hs, hm, hjok, Response.statusOf]
  · simp [Api.handleAuthCallback, he, hc, hs, hm, hjok, Response.statusOf]

/-- C8 witness: concrete serverless runs produce 400 on an unknown state,
500 on a logical exchange failure and 200 on success, and a concrete
server failure run produces 200. -/
theorem c8_response_statuses_amended_witness :
    (Server.callback Fixtures.cfgS (some "abc") (some "s1") none Fixtures.store1
      Fixtures.failReply true "t").response.statusOf = 200 ∧
    (Api.handleAuthCallback (some "abc") (some "deadbeef") none Fixtures.store1
      Fixtures.okReply "t").response.statusOf = 400 ∧
    (Api.handleAuthCallback (some "abc") (some "s1") none Fixtures.store1
      Fixtures.failReply "t").response.statusOf = 500 ∧
    (Api.handleAuthCallback (some "abc") (some "s1") none Fixtures.store1
      Fixtures.okReply "t").response.statusOf = 200 := by
  have h200 := (c8_response_statuses_amended Fixtures.cfgS (some "abc") (some "s1")
    none Fixtures.store1 Fixtures.failReply true "t").1
  have h400 := (c8_response_statuses_amended Fixtures.cfgS (some "abc")
    (some "deadbeef") none Fixtures.store1 Fixtures.okReply true "t").2.2.2.1
    (by decide) (by decide) (by decide) (by decide)
  have h500 := (c8_response_statuses_amended Fixtures.cfgS (some "abc") (some "s1")
    none Fixtures.store1 Fixtures.failReply true "t").2.2.2.2.1
    { user_id := "u1", user_name := "Ann", timestamp := 0 }
    (by decide) (by decide) (by decide) (by decide) (by decide)
  have hok := (c8_response_statuses_amended Fixtures.cfgS (some "abc") (some "s1")
    none Fixtures.store1 Fixtures.okReply true "t").2.2.2.2.2
    { user_id := "u1", user_name := "Ann", timestamp := 0 }
    (by decide) (by decide) (by decide) (by decide) (by decide)
  exact ⟨h200, h400, h500, hok⟩

/-- Both forms of the success page embed the access token verbatim. -/
theorem token_in_success_page (d : SlackTokenData) (sd : StateData)
    (renderOk : Bool) (nowStr t : String)
    (htok : userTokenOf d = some t) (ht : t ≠ "") :
    ∃ pre post,
      (Server.getSuccessPageWithToken d sd renderOk nowStr).1 = pre ++ t ++ post := by
  cases renderOk
  · refine ⟨Server.fbPre, Server.fbPost, ?_⟩
    simp only [Server.getSuccessPageWithToken, Bool.false_eq_true, if_false,
      Server.fallbackSuccessPage, htok, jsOr, if_neg ht]
  · simp only [Server.getSuccessPageWithToken, if_true,
      Server.styledSuccessPage, htok, jsOr, if_neg ht]
    exact ⟨Server.sp1, _, rfl⟩

/-- C9: when building the styled success page fails after a successful
exchange, the handler answers with the minimal fallback page from the
separate render `catch` — a page that still contains the access token —
and the consumed state is still deleted, so the successful exchange is
not silently lost behind an exchange-error page. -/
theorem c9_render_failure_fallback (cfg : Server.Config)
    (code state error : Option String) (store : StateMap) (reply : HttpReply)
    (nowStr : String) (sd : StateData) (u : AuthedUser) (t : String)
    (he : truthy error = false) (hc : truthy code = true) (hs : truthy state = true)
    (hm : mapGet store (interp state) = some sd)
    (hok : reply.ok = true) (hjok : reply.json.ok = true)
    (hu : reply.json.authed_user = some u) (hat : u.access_token = some t)
    (ht : t ≠ "") :
    (Server.callback cfg code state error store reply false nowStr).response =
      .page 200 (Server.fallbackSuccessPage reply.json) ∧
    (∃ post, Server.fallbackSuccessPage reply.json =
      Server.fbPre ++ t ++ post) ∧
    (Server.callback cfg code state error store reply false nowStr).store =
      mapDelete store (interp state) := by
  have htok : userTokenOf reply.json = some t := by
    simp [userTokenOf, hu, hat]
  have htt : truthy (some t) = true := by simp [truthy, ht]
  refine ⟨?_, ⟨Server.fbPost, ?_⟩, ?_⟩
  · simp [Server.callback, Server.exchangeStep, Server.getSuccessPageWithToken,
      he, hc, hs, hm, hok, hjok, htok, htt]
  · simp only [Server.fallbackSuccessPage, htok, jsOr, if_neg ht]
  · simp [Server.callback, Server.exchangeStep, Server.getSuccessPageWithToken,
      he, hc, hs, hm, hok, hjok, htok, htt]

/-- C9 witness: a concrete render failure after a successful exchange
answers the fallback page, which contains the token `xoxp-test`. -/
theorem c9_render_failure_fallback_witness :
    Fixtures.okUser.access_token = some "xoxp-test" ∧
    (Server.callback Fixtures.cfgS (some "abc") (some "s1") none Fixtures.store1
      Fixtures.okReply false "t").response =
      .page 200 (Server.fallbackSuccessPage Fixtures.okReply.json) ∧
    (∃ post, Server.fallbackSuccessPage Fixtures.okReply.json =
      Server.fbPre ++ "xoxp-test" ++ post) := by
  have h := c9_render_failure_fallback Fixtures.cfgS (some "abc") (some "s1") none
    Fixtures.store1 Fixtures.okReply "t"
    { user_id := "u1", user_name := "Ann", timestamp := 0 } Fixtures.okUser
    "xoxp-test" (by decide) (by decide) (by decide) (by decide) (by decide)
    (by decide) (by decide) (by decide) (by decide)
  exact ⟨by decide, h.1, h.2.1⟩

/-- C3: on a successful exchange the rendered response embeds the access
token verbatim, while the emitted log lines are invariant under the value
of the token — replacing the token by any other (non-empty) value leaves
every log line unchanged, so no log line carries the token. -/
theorem c3_token_rendered_never_logged (cfg : Server.Config)
    (code state error : Option String) (store : StateMap) (reply : HttpReply)
    (renderOk : Bool) (nowStr : String) (sd : StateData) (u : AuthedUser)
    (t t' : String)
    (he : truthy error = false) (hc : truthy code = true) (hs : truthy state = true)
    (hm : mapGet store (interp state) = some sd)
    (hok : reply.ok = true) (hjok : reply.json.ok = true)
    (hu : reply.json.authed_user = some u)
    (ht : t ≠ "") (ht' : t' ≠ "") :
    (∃ pre post,
      (Server.callback cfg code state error store (setToken reply t) renderOk
        nowStr).response.bodyOf = pre ++ t ++ post) ∧
    (Server.callback cfg code state error store (setToken reply t) renderOk
      nowStr).logs =
    (Server.callback cfg code state error store (setToken reply t') renderOk
      nowStr).logs := by
  have h4 : ∀ s, (setToken reply s).ok = reply.ok := fun s => rfl
  have h3 : ∀ s, (setToken reply s).json.ok = reply.json.ok := fun s => rfl
  have h5 : ∀ s, (setToken reply s).status = reply.status := fun s => rfl
  have h6 : ∀ s, (setToken reply s).statusText = reply.statusText := fun s => rfl
  have h2 : ∀ s, (setToken reply s).json.error = reply.json.error := fun s => rfl
  have h1 : ∀ s, (setToken reply s).json.team = reply.json.team := fun s => rfl
  have h7 : ∀ s, (setToken reply s).json.authed_user =
      some { u with access_token := some s } := fun s => by
    simp [setToken, hu]
  have htk : ∀ s, userTokenOf (setToken reply s).json = some s := fun s => by
    simp [userTokenOf, setToken, hu]
  have hid : ∀ s, userIdOf (setToken reply s).json = u.id := fun s => by
    simp [userIdOf, setToken, hu]
  have hnm : ∀ s, userNameOf (setToken reply s).json = u.name := fun s => by
    simp [userNameOf, setToken, hu]
  have htt : truthy (some t) = true := by simp [truthy, ht]
  have htt' : truthy (some t') = true := by simp [truthy, ht']
  constructor
  · have hbody : (Server.callback cfg code state error store (setToken reply t)
        renderOk nowStr).response =
        .page 200 (Server.getSuccessPageWithToken (setToken reply t).json sd
          renderOk nowStr).1 := by
      cases renderOk <;>
        simp [Server.callback, Server.exchangeStep, Server.getSuccessPageWithToken,
          he, hc, hs, hm, h4, h3, htk, htt, hok, hjok]
    obtain ⟨pre, post, hpp⟩ := token_in_success_page (setToken reply t).json sd
      renderOk nowStr t (htk t) ht
    exact ⟨pre, post, by rw [hbody]; exact hpp⟩
  · cases renderOk <;>
      simp [Server.callback, Server.exchangeStep, Server.getSuccessPageWithToken,
        Server.replyStructureLog, he, hc, hs, hm, h1, h2, h3, h4, h5, h6, h7,
        htk, hid, hnm, htt, htt', hok, hjok]

/-- C3 witness: a concrete successful run embeds `xoxp-test` in the
response body, and its log lines coincide with those of the same run
carrying a different token. -/
theorem c3_token_rendered_never_logged_witness :
    (∃ pre post,
      (Server.callback Fixtures.cfgS (some "abc") (some "s1") none Fixtures.store1
        (setToken Fixtures.okReply "xoxp-test") true "t").response.bodyOf =
        pre ++ "xoxp-test" ++ post) ∧
    (Server.callback Fixtures.cfgS (some "abc") (some "s1") none Fixtures.store1
      (setToken Fixtures.okReply "xoxp-test") true "t").logs =
    (Server.callback Fixtures.cfgS (some "abc") (some "s1") none Fixtures.store1
      (setToken Fixtures.okReply "xoxp-other") true "t").logs := by
  exact c3_token_rendered_never_logged Fixtures.cfgS (some "abc") (some "s1") none
    Fixtures.store1 Fixtures.okReply true "t"
    { user_id := "u1", user_name := "Ann", timestamp := 0 } Fixtures.okUser
    "xoxp-test" "xoxp-other" (by decide) (by decide) (by decide) (by decide)
    (by decide) (by decide) (by decide) (by decide) (by decide)

end SlackRelay
